import Mathlib

/-!
Verification of the curiefense request-inspection core.

The development shallowly embeds the two Rust source files:

* `curiefense/src/requestfields.rs` — the merging multi-value field
  container `RequestField` with its base64-shadow insertion logic;
* `src/lib.rs` — the decision pipeline `inspect_generic` with its
  helpers `acl_block` and `challenge_verified`, and the Lua-facing
  wrapper `inspect`.

Code of the repository that the pipeline calls but that is not part of
the two files above (`get_config`, `map_request`, `match_urlmap`,
`challenge_phase01/02`, `tag_request`, `limit_check`, `check_acl`,
`waf_check`, the `HSDB` lock) is treated as an oracle: the pipeline is
parameterised over the results those calls produce, exactly at the call
sites the Rust code has, and a trace records which stages were invoked.
The base64 and UTF-8 codecs are external library crates and are
abstracted as a `Decoder` record.
-/

set_option autoImplicit false

namespace Curiefense

/-! ## The multi-value field container (`requestfields.rs`) -/

/-- Abstract interface for the external codec crates used by
`RequestField::add`: `base64::decode` (on the UTF-8 bytes of the value)
and `String::from_utf8`.  Both are fallible. -/
structure Decoder where
  base64_decode : String → Option (List Nat)
  string_from_utf8 : List Nat → Option String

/-- Specification of `HashMap::entry(key).and_modify(push ' '; push_str value).or_insert(value)`
on an association-list view of the map: the entry for `key`, if present,
has `" " ++ value` appended to its value; otherwise `(key, value)` is
inserted. -/
def baseAddList (key value : String) : List (String × String) → List (String × String)
  | [] => [(key, value)]
  | p :: rest =>
    if p.1 = key then (p.1, p.2 ++ " " ++ value) :: rest
    else p :: baseAddList key value rest

/-- Lookup of the (unique) entry for a key in the association-list view. -/
def listGet (key : String) : List (String × String) → Option String
  | [] => none
  | p :: rest => if p.1 = key then some p.2 else listGet key rest

/-- `RequestField`: a newtype for user supplied data that can collide;
more or less like a `HashMap`, but concatenates entries with a separator
on insert (`requestfields.rs`, line 8). -/
structure RequestField where
  entries : List (String × String)

/-- `RequestField::get`. -/
def RequestField.get (rf : RequestField) (k : String) : Option String :=
  listGet k rf.entries

/-- `RequestField::base_add` (`requestfields.rs`, lines 17-25). -/
def RequestField.base_add (rf : RequestField) (key value : String) : RequestField :=
  ⟨baseAddList key value rf.entries⟩

/-- First half of `RequestField::add` (`requestfields.rs`, lines 29-36):
if the value is non-empty, decodes as base64 and the decoded bytes are
valid UTF-8, merge the decoded text under `key ++ "_base64"`; otherwise
leave the container unchanged. -/
def shadow_add (d : Decoder) (rf : RequestField) (key value : String) : RequestField :=
  if value.isEmpty then rf
  else
    match d.base64_decode value with
    | none => rf
    | some b64decoded =>
      match d.string_from_utf8 b64decoded with
      | none => rf
      | some b64value => rf.base_add (key ++ "_base64") b64value

/-- `RequestField::add` (`requestfields.rs`, lines 27-38): try to insert
each value as its decoded base64 version, if it makes sense, then insert
the raw value under `key`. -/
def RequestField.add (d : Decoder) (rf : RequestField) (key value : String) : RequestField :=
  (shadow_add d rf key value).base_add key value

/-- `RequestField::is_empty`. -/
def RequestField.is_empty (rf : RequestField) : Bool :=
  rf.entries.isEmpty

/-! ## The decision pipeline (`lib.rs`) -/

/-- Minimal JSON values, for the structured `reason` documents built with
`serde_json::json!`. -/
inductive Json where
  | null : Json
  | num (n : Int) : Json
  | str (s : String) : Json
  | arr (elems : List Json) : Json
  | obj (fields : List (String × Json)) : Json

/-- Lookup in the field list of a JSON object. -/
def listGetJson (key : String) : List (String × Json) → Option Json
  | [] => none
  | p :: rest => if p.1 = key then some p.2 else listGetJson key rest

/-- Field lookup in a JSON object. -/
def Json.lookup : Json → String → Option Json
  | Json.obj fields, k => listGetJson k fields
  | _, _ => none

/-- `ActionType` (from `curiefense::interface`), as used by `acl_block`. -/
inductive ActionType where
  | Block : ActionType
  | Monitor : ActionType
deriving DecidableEq

/-- `Action` (from `curiefense::interface`), with the fields `acl_block`
populates. -/
structure Action where
  atype : ActionType
  ban : Bool
  status : Nat
  headers : Option (List (String × String))
  reason : Json
  content : String
  extra_tags : Option (List String)

/-- `Decision` (from `curiefense::interface`): pass, or act. -/
inductive Decision where
  | Pass : Decision
  | Action (action : Action) : Decision

/-- `acl_block` (`lib.rs`, lines 65-79). -/
def acl_block (blocking : Bool) (code : Int) (tags : List String) : Decision :=
  Decision.Action
    { atype := if blocking then ActionType.Block else ActionType.Monitor
      ban := false
      status := 403
      headers := none
      reason := Json.obj
        [("action", Json.num code), ("initiator", Json.str "acl"),
         ("reason", Json.arr (tags.map Json.str))]
      content := "access denied"
      extra_tags := none }

/-- Reason code of a decision: the `"action"` field of the structured
reason document, when the decision is an `Action` and the field is a
number. -/
def Decision.reason_action_code : Decision → Option Int
  | Decision.Pass => none
  | Decision.Action a =>
    match a.reason.lookup "action" with
    | some (Json.num n) => some n
    | _ => none

/-- `ACLDecision` (from `curiefense::acl`): shape dictated by the pattern
matches in `lib.rs` (`ACLDecision { allowed, tags }`). -/
structure ACLDecision where
  allowed : Bool
  tags : List String

/-- `BotHuman` (from `curiefense::acl`): shape dictated by the pattern
matches in `lib.rs` (`BotHuman { bot, human }` with optional
sub-decisions). -/
structure BotHuman where
  bot : Option ACLDecision
  human : Option ACLDecision

/-- `ACLResult` (from `curiefense::acl`): shape dictated by the pattern
matches in `lib.rs` (`Bypass(dec)` / `Match(BotHuman)`). -/
inductive ACLResult where
  | Bypass (dec : ACLDecision) : ACLResult
  | Match (bh : BotHuman) : ACLResult

/-- Modelled from the spec: the `Grasshopper` capability (§6) with
`parse_rbzid(token, ua) -> Option<bool>`; the trait itself lives in
`curiefense::interface`, which is not under `src/`.  Challenge issuance
(`issue_challenge` / `challenge_phase01`) is an oracle of the
environment below. -/
structure Grasshopper where
  parse_rbzid : String → String → Option Bool

/-- The slice of `RequestInfo` (from `curiefense::utils`, not under
`src/`) that `lib.rs` reads: the cookie map, the header map and the
reassembled URI (`reqinfo.rinfo.qinfo.uri`, an optional string). -/
structure RequestInfo where
  cookies : RequestField
  headers : RequestField
  uri : Option String

/-- Modelled from the spec: the tag set (§3) — flat labels plus
qualified `family:value` labels, duplicates collapsed; the `Tags` type
lives in `curiefense::tagging`, which is not under `src/`. -/
structure Tags where
  tags : List String

/-- Modelled from the spec: `insert_qualified` adds the label
`family ++ ":" ++ value` to the tag set (duplicates collapsed). -/
def Tags.insert_qualified (t : Tags) (family value : String) : Tags :=
  if (family ++ ":" ++ value) ∈ t.tags then t else ⟨(family ++ ":" ++ value) :: t.tags⟩

/-- The configuration snapshot; its contents are only consumed by oracle
stages, so it is abstract here. -/
structure Config where
  mk ::

/-- ACL profile slice read by `lib.rs`: `id` and `name`. -/
structure ACLProfile where
  id : String
  name : String

/-- WAF profile slice read by `lib.rs`: `name`. -/
structure WAFProfile where
  name : String

/-- URL map slice read by `lib.rs`: `name`, the two profiles and the
`acl_active` (block vs monitor) flag; the rate-limit rule list is only
passed to the `limit_check` oracle, which receives the whole map. -/
structure UrlMap where
  name : String
  acl_profile : ACLProfile
  waf_profile : WAFProfile
  acl_active : Bool

/-- Pipeline stages, in the order `inspect_generic` may invoke them; the
embedding returns the list of stages actually invoked. -/
inductive Stage where
  | matchUrlmap : Stage
  | challengePhase02 : Stage
  | tagRequest : Stage
  | limitCheck : Stage
  | checkAcl : Stage
  | challengePhase01 : Stage
  | hsdbRead : Stage
  | wafCheck : Stage
deriving DecidableEq

/-- Oracle environment for `inspect_generic`: the results of the calls
into repository modules that are not under `src/` (configuration load,
request mapping, URL-map matching, challenge phases, tagging, rate
limiting, ACL evaluation, the signature-database lock and the WAF
scan), one field per call site of `lib.rs`. -/
structure Env where
  get_config : Except String Config
  reqinfo : RequestInfo
  match_urlmap : Option (String × UrlMap)
  challenge_phase02 : Grasshopper → String → RequestField → Option Decision
  tag_request : Tags
  limit_check : RequestInfo → UrlMap → Tags → Decision × Tags
  check_acl : Tags → ACLProfile → ACLResult
  hsdb_read : Except String Unit
  waf_check : RequestInfo → WAFProfile → Option Action
  challenge_phase01 : Grasshopper → String → List String → Decision

/-- `challenge_verified` (`lib.rs`, lines 81-90). -/
def challenge_verified (gh : Grasshopper) (reqinfo : RequestInfo) : Bool :=
  match reqinfo.cookies.get "rbzid" with
  | some rbzid =>
    match reqinfo.headers.get "user-agent" with
    | some ua => (gh.parse_rbzid (rbzid.replace "-" "=") ua).getD false
    | none => false
  | none => false

/-- Phase-02 challenge check (`lib.rs`, lines 107-116):
`mgh.as_ref().and_then(|gh| uri.as_ref().and_then(|uri| challenge_phase02(gh, uri, headers)))`. -/
def phase02_result (env : Env) (mgh : Option Grasshopper) : Option Decision :=
  mgh.bind fun gh =>
    env.reqinfo.uri.bind fun uri =>
      env.challenge_phase02 gh uri env.reqinfo.headers

/-- Trace of the phase-02 check: `challenge_phase02` is called exactly
when both a grasshopper and a URI are present. -/
def phase02_trace (env : Env) (mgh : Option Grasshopper) : List Stage :=
  match mgh, env.reqinfo.uri with
  | some _, some _ => [Stage.challengePhase02]
  | _, _ => []

/-- WAF stage (`lib.rs`, lines 178-184): acquire the signature-database
read lock with `?` (the error propagates), then run `waf_check`;
`Ok(())` becomes `Pass` and `Err(wb)` becomes `Action(wb.to_action())`
(the oracle already delivers the converted action). -/
def waf_stage (env : Env) (urlmap : UrlMap) : Except String Decision :=
  match env.hsdb_read with
  | Except.error e => Except.error e
  | Except.ok _ =>
    match env.waf_check env.reqinfo urlmap.waf_profile with
    | none => Except.ok Decision.Pass
    | some a => Except.ok (Decision.Action a)

/-- Trace of the WAF stage: the lock is always taken; `waf_check` runs
only when the lock acquisition succeeded. -/
def waf_trace (env : Env) : List Stage :=
  match env.hsdb_read with
  | Except.error _ => [Stage.hsdbRead]
  | Except.ok _ => [Stage.hsdbRead, Stage.wafCheck]

/-- Tag set after `tag_request` and the five `insert_qualified` calls
(`lib.rs`, lines 118-123). -/
def pipeline_tags (env : Env) (nm : String) (urlmap : UrlMap) : Tags :=
  ((((env.tag_request.insert_qualified "urlmap" nm).insert_qualified
      "urlmap-entry" urlmap.name).insert_qualified
      "aclid" urlmap.acl_profile.id).insert_qualified
      "aclname" urlmap.acl_profile.name).insert_qualified
      "wafid" urlmap.waf_profile.name

/-- Stages invoked before the ACL dispatch, on the path where neither
phase 02 nor the rate limiter short-circuited. -/
def pre_acl_trace (env : Env) (mgh : Option Grasshopper) : List Stage :=
  [Stage.matchUrlmap] ++ phase02_trace env mgh ++
    [Stage.tagRequest, Stage.limitCheck, Stage.checkAcl]

/-- ACL dispatch (`lib.rs`, lines 140-177), with the Rust match arms in
their source order: bypass, then human-denied (any bot sub-result), then
bot-denied (any remaining human sub-result, challenged through
grasshopper when available), and otherwise fall through to the WAF
stage. -/
def acl_dispatch (env : Env) (mgh : Option Grasshopper) (urlmap : UrlMap)
    (acl_result : ACLResult) (tr : List Stage) : Except String Decision × List Stage :=
  match acl_result with
  | ACLResult.Bypass dec =>
    if dec.allowed then (Except.ok Decision.Pass, tr)
    else (Except.ok (acl_block urlmap.acl_active 0 dec.tags), tr)
  | ACLResult.Match ⟨_, some ⟨false, tags⟩⟩ =>
    (Except.ok (acl_block urlmap.acl_active 5 tags), tr)
  | ACLResult.Match ⟨some ⟨false, tags⟩, _⟩ =>
    match mgh with
    | some gh =>
      if challenge_verified gh env.reqinfo then
        (waf_stage env urlmap, tr ++ waf_trace env)
      else
        match env.reqinfo.headers.get "user-agent" with
        | none => (Except.ok (acl_block urlmap.acl_active 3 tags), tr)
        | some ua =>
          (Except.ok (env.challenge_phase01 gh ua tags), tr ++ [Stage.challengePhase01])
    | none => (waf_stage env urlmap, tr ++ waf_trace env)
  | ACLResult.Match _ => (waf_stage env urlmap, tr ++ waf_trace env)

/-- `inspect_generic` (`lib.rs`, lines 94-185), over the oracle
environment, together with the trace of invoked stages. -/
def inspect_generic (env : Env) (mgh : Option Grasshopper) :
    Except String Decision × List Stage :=
  match env.get_config with
  | Except.error e => (Except.error e, [])
  | Except.ok _cfg =>
    match env.match_urlmap with
    | none => (Except.ok Decision.Pass, [Stage.matchUrlmap])
    | some (nm, urlmap) =>
      match phase02_result env mgh with
      | some dec => (Except.ok dec, [Stage.matchUrlmap] ++ phase02_trace env mgh)
      | none =>
        let pr := env.limit_check env.reqinfo urlmap (pipeline_tags env nm urlmap)
        match pr.1 with
        | Decision.Action a =>
          (Except.ok (Decision.Action a),
            [Stage.matchUrlmap] ++ phase02_trace env mgh ++
              [Stage.tagRequest, Stage.limitCheck])
        | Decision.Pass =>
          acl_dispatch env mgh urlmap (env.check_acl pr.2 urlmap.acl_profile)
            (pre_acl_trace env mgh)

/-- `inspect` (`lib.rs`, lines 24-46), decision part: the result of
`inspect_generic` is collapsed with `res.ok()`, so an `Err` becomes no
decision at all. -/
def inspect (env : Env) (mgh : Option Grasshopper) : Option Decision :=
  (inspect_generic env mgh).1.toOption

/-! ## Concrete instances used in closed evaluations -/

/-- Example decoder: defined on the inputs the concrete evaluations use
(`"YWRtaW4="` decodes to the bytes of `"admin"`). -/
def exDecoder : Decoder where
  base64_decode := fun s => if s = "YWRtaW4=" then some [97, 100, 109, 105, 110] else none
  string_from_utf8 := fun l => if l = [97, 100, 109, 105, 110] then some "admin" else none

/-- Example grasshopper: accepts exactly the re-encoded token
`"tok=en"` with user-agent `"curl/8"`. -/
def exGrasshopper : Grasshopper where
  parse_rbzid := fun tok ua => if tok = "tok=en" ∧ ua = "curl/8" then some true else none

/-- Example grasshopper whose `parse_rbzid` never answers. -/
def exGrasshopperNone : Grasshopper where
  parse_rbzid := fun _ _ => none

/-- Example grasshopper that verifies every challenge token. -/
def exGrasshopperTrue : Grasshopper where
  parse_rbzid := fun _ _ => some true

/-- Example request: an `rbzid` cookie (with cookie-safe hyphens), a
user-agent header, and a URI. -/
def exRequestInfo : RequestInfo where
  cookies := ⟨[("rbzid", "tok-en")]⟩
  headers := ⟨[("user-agent", "curl/8")]⟩
  uri := some "/"

/-- Example request without any cookie. -/
def exRequestInfoNoCookie : RequestInfo where
  cookies := ⟨[]⟩
  headers := ⟨[("user-agent", "curl/8")]⟩
  uri := some "/"

/-- Example request without a user-agent header. -/
def exRequestInfoNoUA : RequestInfo where
  cookies := ⟨[("rbzid", "tok-en")]⟩
  headers := ⟨[]⟩
  uri := some "/"

/-- Example URL map, in blocking (`acl_active`) mode. -/
def exUrlMap : UrlMap where
  name := "default"
  acl_profile := { id := "aclid1", name := "aclname1" }
  waf_profile := { name := "wafname1" }
  acl_active := true

/-- Example rate-limit action. -/
def exLimitAction : Action where
  atype := ActionType.Block
  ban := false
  status := 503
  headers := none
  reason := Json.obj [("initiator", Json.str "limit"), ("rule", Json.str "rl1")]
  content := "limit exceeded"
  extra_tags := none

/-- Baseline oracle environment: the URL map matches, phase 02 yields
nothing, the rate limiter passes, the ACL yields an empty match, the
signature database lock is healthy and the WAF scan passes. -/
def exEnv : Env where
  get_config := Except.ok Config.mk
  reqinfo := exRequestInfo
  match_urlmap := some ("hostmap", exUrlMap)
  challenge_phase02 := fun _ _ _ => none
  tag_request := ⟨[]⟩
  limit_check := fun _ _ t => (Decision.Pass, t)
  check_acl := fun _ _ => ACLResult.Match ⟨none, none⟩
  hsdb_read := Except.ok ()
  waf_check := fun _ _ => none
  challenge_phase01 := fun _ _ _ => Decision.Pass

/-- Environment whose ACL evaluation denies the bot sub-result. -/
def envBotDenied : Env :=
  { exEnv with check_acl := fun _ _ => ACLResult.Match ⟨some ⟨false, ["bot:curl"]⟩, none⟩ }

/-- Environment whose signature-database lock acquisition fails. -/
def envHsdbErr : Env :=
  { exEnv with hsdb_read := Except.error "poisoned" }

/-- Environment whose ACL evaluation denies the human sub-result while
also carrying a denied bot sub-result. -/
def envHumanDenied : Env :=
  { exEnv with
      check_acl := fun _ _ =>
        ACLResult.Match ⟨some ⟨false, ["bot:curl"]⟩, some ⟨false, ["deny:tag"]⟩⟩ }

/-- Environment whose rate-limit stage returns an action. -/
def envLimitHit : Env :=
  { exEnv with limit_check := fun _ _ t => (Decision.Action exLimitAction, t) }

/-! ## Container lemmas -/

theorem listGet_baseAddList_same (key value : String) (l : List (String × String)) :
    listGet key (baseAddList key value l) =
      some (match listGet key l with
            | none => value
            | some w => w ++ " " ++ value) := by
  induction l with
  | nil => simp [baseAddList, listGet]
  | cons p rest ih =>
    by_cases h : p.1 = key
    · simp [baseAddList, listGet, h]
    · simp [baseAddList, listGet, h, ih]

theorem listGet_baseAddList_other (key value j : String) (l : List (String × String))
    (hne : j ≠ key) :
    listGet j (baseAddList key value l) = listGet j l := by
  have hkj : key ≠ j := Ne.symm hne
  induction l with
  | nil => simp [baseAddList, listGet, hkj]
  | cons p rest ih =>
    by_cases h : p.1 = key
    · simp only [baseAddList, if_pos h, listGet, h]
      simp [hkj]
    · simp only [baseAddList, if_neg h, listGet]
      by_cases h2 : p.1 = j
      · simp [if_pos h2]
      · simp [if_neg h2, ih]

theorem get_base_add_same (rf : RequestField) (key value : String) :
    (rf.base_add key value).get key =
      some (match rf.get key with
            | none => value
            | some w => w ++ " " ++ value) :=
  listGet_baseAddList_same key value rf.entries

theorem get_base_add_other (rf : RequestField) (key value j : String) (hne : j ≠ key) :
    (rf.base_add key value).get j = rf.get j :=
  listGet_baseAddList_other key value j rf.entries hne

/-- Appending `"_base64"` always changes a key. -/
theorem ne_append_base64 (k : String) : k ≠ k ++ "_base64" := by
  intro h
  have h7 : "_base64".length = 7 := rfl
  have hl : (k ++ "_base64").length = k.length + 7 := by
    rw [String.length_append, h7]
  rw [← h] at hl
  omega

theorem base_add_isSome (rf : RequestField) (key value j : String)
    (h : (rf.get j).isSome) : ((rf.base_add key value).get j).isSome := by
  by_cases hj : j = key
  · subst hj
    rw [get_base_add_same]
    rfl
  · rwa [get_base_add_other rf key value j hj]

theorem shadow_add_of_decode (d : Decoder) (rf : RequestField) (key value : String)
    (bytes : List Nat) (text : String) (hv : value ≠ "")
    (hdec : d.base64_decode value = some bytes)
    (hutf : d.string_from_utf8 bytes = some text) :
    shadow_add d rf key value = rf.base_add (key ++ "_base64") text := by
  have hvE : ¬ value.isEmpty = true := fun h => hv ((String.isEmpty_iff value).mp h)
  rw [shadow_add, if_neg hvE]
  simp only [hdec, hutf]

theorem shadow_add_of_fail (d : Decoder) (rf : RequestField) (key value : String)
    (hfail : value = "" ∨ d.base64_decode value = none ∨
      ∀ bytes, d.base64_decode value = some bytes → d.string_from_utf8 bytes = none) :
    shadow_add d rf key value = rf := by
  by_cases hvE : value.isEmpty = true
  · rw [shadow_add, if_pos hvE]
  · rw [shadow_add, if_neg hvE]
    rcases hfail with hv | hdec | hutf
    · exact absurd ((String.isEmpty_iff value).mpr hv) hvE
    · rw [hdec]
    · cases hdec : d.base64_decode value with
      | none => rfl
      | some bytes => simp only [hdec, hutf bytes hdec]

theorem shadow_add_cases (d : Decoder) (rf : RequestField) (key value : String) :
    shadow_add d rf key value = rf ∨
      ∃ text, shadow_add d rf key value = rf.base_add (key ++ "_base64") text := by
  by_cases hvE : value.isEmpty = true
  · left; rw [shadow_add, if_pos hvE]
  · cases hdec : d.base64_decode value with
    | none => left; rw [shadow_add, if_neg hvE, hdec]
    | some bytes =>
      cases hutf : d.string_from_utf8 bytes with
      | none =>
        left
        rw [shadow_add, if_neg hvE]
        simp only [hdec, hutf]
      | some text =>
        right
        refine ⟨text, ?_⟩
        rw [shadow_add, if_neg hvE]
        simp only [hdec, hutf]

/-! ## Claims about the field container -/

/-- C6: for every `RequestField` and every insertion of `(k, v)` through
`base_add`: if `k` is absent the container afterwards maps `k` to exactly
`v`; if `k` is already present with value `w`, the container afterwards
maps `k` to `w` followed by a single space followed by `v`. -/
theorem C6_base_add_merge (rf : RequestField) (k v : String) :
    (rf.get k = none → (rf.base_add k v).get k = some v) ∧
    (∀ w, rf.get k = some w → (rf.base_add k v).get k = some (w ++ " " ++ v)) := by
  constructor
  · intro h
    rw [get_base_add_same, h]
  · intro w h
    rw [get_base_add_same, h]

/-- Closed instance of `C6_base_add_merge` at concrete inputs. -/
theorem C6_witness :
    ((RequestField.mk []).base_add "a" "y").get "a" = some "y" ∧
    ((RequestField.mk [("a", "x")]).base_add "a" "y").get "a" = some "x y" :=
  ⟨(C6_base_add_merge ⟨[]⟩ "a" "y").1 rfl,
   (C6_base_add_merge ⟨[("a", "x")]⟩ "a" "y").2 "x" rfl⟩

/-- C3: for every insertion `add(k, v)`: if `v` is non-empty,
base64-decodes successfully and the decoded bytes are valid UTF-8 text,
then afterwards the container maps `k ++ "_base64"` to a value containing
that text; if `v` is empty, fails to decode, or decodes to non-UTF-8
bytes, the entry under `k ++ "_base64"` is exactly what it was before the
insertion (no shadow is created by this insertion). -/
theorem C3_base64_shadow (d : Decoder) (rf : RequestField) (k v : String) :
    (∀ bytes text, v ≠ "" → d.base64_decode v = some bytes →
      d.string_from_utf8 bytes = some text →
      ∃ w, (rf.add d k v).get (k ++ "_base64") = some w ∧ text.data <:+: w.data) ∧
    ((v = "" ∨ d.base64_decode v = none ∨
        (∀ bytes, d.base64_decode v = some bytes → d.string_from_utf8 bytes = none)) →
      (rf.add d k v).get (k ++ "_base64") = rf.get (k ++ "_base64")) := by
  have hne : (k ++ "_base64") ≠ k := Ne.symm (ne_append_base64 k)
  constructor
  · intro bytes text hv hdec hutf
    have hsh := shadow_add_of_decode d rf k v bytes text hv hdec hutf
    rw [RequestField.add, get_base_add_other _ _ _ _ hne, hsh, get_base_add_same]
    cases hold : rf.get (k ++ "_base64") with
    | none => exact ⟨text, rfl, List.infix_refl _⟩
    | some w0 =>
      exact ⟨w0 ++ " " ++ text, rfl,
        (List.suffix_append (w0 ++ " ").data text.data).isInfix⟩
  · intro hfail
    rw [RequestField.add, shadow_add_of_fail d rf k v hfail,
      get_base_add_other _ _ _ _ hne]

/-- Closed instance of `C3_base64_shadow` at concrete inputs: the shadow
is created for a decodable value, and a non-decodable value leaves the
shadow key untouched. -/
theorem C3_witness :
    (∃ w, ((RequestField.mk []).add exDecoder "x" "YWRtaW4=").get "x_base64" = some w ∧
      "admin".data <:+: w.data) ∧
    ((RequestField.mk []).add exDecoder "x" "&&&").get "x_base64" = none :=
  ⟨(C3_base64_shadow exDecoder ⟨[]⟩ "x" "YWRtaW4=").1 [97, 100, 109, 105, 110] "admin"
      (by decide) rfl rfl,
   (C3_base64_shadow exDecoder ⟨[]⟩ "x" "&&&").2 (Or.inr (Or.inl rfl))⟩

/-- C7: when an insertion `add(k, v)` creates a base64 shadow, the
decoded text is merged under `k ++ "_base64"` before the raw value is
merged under `k`; consequently the final value under `k` is exactly a
raw merge and the final value under `k ++ "_base64"` is exactly a
decoded merge. -/
theorem C7_shadow_before_raw (d : Decoder) (rf : RequestField) (k v : String)
    (bytes : List Nat) (text : String) (hv : v ≠ "")
    (hdec : d.base64_decode v = some bytes)
    (hutf : d.string_from_utf8 bytes = some text) :
    rf.add d k v = (rf.base_add (k ++ "_base64") text).base_add k v ∧
    (rf.add d k v).get k = (rf.base_add k v).get k ∧
    (rf.add d k v).get (k ++ "_base64") =
      (rf.base_add (k ++ "_base64") text).get (k ++ "_base64") := by
  have hne : (k ++ "_base64") ≠ k := Ne.symm (ne_append_base64 k)
  have hne2 : k ≠ k ++ "_base64" := ne_append_base64 k
  have hsh := shadow_add_of_decode d rf k v bytes text hv hdec hutf
  refine ⟨by rw [RequestField.add, hsh], ?_, ?_⟩
  · rw [RequestField.add, hsh, get_base_add_same,
      get_base_add_other rf (k ++ "_base64") text k hne2, get_base_add_same]
  · rw [RequestField.add, hsh, get_base_add_other _ _ _ _ hne]

/-- Closed instance of `C7_shadow_before_raw` at concrete inputs,
including a raw key that itself ends in `"_base64"` and already holds a
value. -/
theorem C7_witness :
    (RequestField.mk [("x_base64", "seen")]).add exDecoder "x" "YWRtaW4=" =
      ((RequestField.mk [("x_base64", "seen")]).base_add "x_base64" "admin").base_add
        "x" "YWRtaW4=" :=
  (C7_shadow_before_raw exDecoder ⟨[("x_base64", "seen")]⟩ "x" "YWRtaW4="
    [97, 100, 109, 105, 110] "admin" (by decide) rfl rfl).1

/-- C10: an insertion `add(k, v)` modifies at most the entries for `k`
and `k ++ "_base64"`: every other key keeps the exact value it had, and
no key already present is ever removed. -/
theorem C10_add_frame (d : Decoder) (rf : RequestField) (k v j : String) :
    (j ≠ k → j ≠ k ++ "_base64" → (rf.add d k v).get j = rf.get j) ∧
    ((rf.get j).isSome → ((rf.add d k v).get j).isSome) := by
  constructor
  · intro hjk hjb
    rw [RequestField.add, get_base_add_other _ _ _ _ hjk]
    rcases shadow_add_cases d rf k v with hsh | ⟨text, hsh⟩
    · rw [hsh]
    · rw [hsh, get_base_add_other _ _ _ _ hjb]
  · intro hj
    rw [RequestField.add]
    apply base_add_isSome
    rcases shadow_add_cases d rf k v with hsh | ⟨text, hsh⟩
    · rwa [hsh]
    · rw [hsh]
      exact base_add_isSome _ _ _ _ hj

/-- Closed instance of `C10_add_frame` at concrete inputs. -/
theorem C10_witness :
    (((RequestField.mk [("other", "o")]).add exDecoder "x" "YWRtaW4=").get "other" =
      (RequestField.mk [("other", "o")]).get "other") ∧
    ((((RequestField.mk [("other", "o")]).add exDecoder "x" "YWRtaW4=").get "other").isSome) :=
  ⟨(C10_add_frame exDecoder ⟨[("other", "o")]⟩ "x" "YWRtaW4=" "other").1
      (by decide) (by decide),
   (C10_add_frame exDecoder ⟨[("other", "o")]⟩ "x" "YWRtaW4=" "other").2 (by decide)⟩

/-! ## Pipeline lemmas -/

theorem mem_phase02_trace (env : Env) (mgh : Option Grasshopper) (s : Stage)
    (hs : s ∈ phase02_trace env mgh) : s = Stage.challengePhase02 := by
  unfold phase02_trace at hs
  cases mgh with
  | none => cases hu : env.reqinfo.uri <;> simp [hu] at hs
  | some gh =>
    cases hu : env.reqinfo.uri with
    | none => simp [hu] at hs
    | some u => simp [hu] at hs; exact hs

theorem mem_pre_acl_trace (env : Env) (mgh : Option Grasshopper) (s : Stage)
    (hs : s ∈ pre_acl_trace env mgh) :
    s = Stage.matchUrlmap ∨ s = Stage.challengePhase02 ∨ s = Stage.tagRequest ∨
      s = Stage.limitCheck ∨ s = Stage.checkAcl := by
  unfold pre_acl_trace at hs
  rcases List.mem_append.mp hs with h | h
  · rcases List.mem_append.mp h with h2 | h2
    · simp at h2; tauto
    · exact Or.inr (Or.inl (mem_phase02_trace env mgh s h2))
  · simp at h; tauto

theorem mem_waf_trace (env : Env) (s : Stage) (hs : s ∈ waf_trace env) :
    s = Stage.hsdbRead ∨ s = Stage.wafCheck := by
  unfold waf_trace at hs
  cases he : env.hsdb_read <;> simp [he] at hs <;> tauto

theorem hsdbRead_mem_waf_trace (env : Env) : Stage.hsdbRead ∈ waf_trace env := by
  unfold waf_trace
  cases he : env.hsdb_read <;> simp

theorem inspect_generic_to_acl (env : Env) (mgh : Option Grasshopper)
    (cfg : Config) (nm : String) (urlmap : UrlMap)
    (h1 : env.get_config = Except.ok cfg)
    (h2 : env.match_urlmap = some (nm, urlmap))
    (hp : phase02_result env mgh = none)
    (h3 : (env.limit_check env.reqinfo urlmap (pipeline_tags env nm urlmap)).1 =
      Decision.Pass) :
    inspect_generic env mgh =
      acl_dispatch env mgh urlmap
        (env.check_acl
          (env.limit_check env.reqinfo urlmap (pipeline_tags env nm urlmap)).2
          urlmap.acl_profile)
        (pre_acl_trace env mgh) := by
  simp only [inspect_generic, h1, h2, hp, h3, pre_acl_trace]

theorem inspect_generic_limit_hit (env : Env) (mgh : Option Grasshopper)
    (cfg : Config) (nm : String) (urlmap : UrlMap) (a : Action)
    (h1 : env.get_config = Except.ok cfg)
    (h2 : env.match_urlmap = some (nm, urlmap))
    (hp : phase02_result env mgh = none)
    (h3 : (env.limit_check env.reqinfo urlmap (pipeline_tags env nm urlmap)).1 =
      Decision.Action a) :
    inspect_generic env mgh =
      (Except.ok (Decision.Action a),
        [Stage.matchUrlmap] ++ phase02_trace env mgh ++
          [Stage.tagRequest, Stage.limitCheck]) := by
  simp only [inspect_generic, h1, h2, hp, h3]

theorem acl_dispatch_human_denied (env : Env) (mgh : Option Grasshopper) (urlmap : UrlMap)
    (bot : Option ACLDecision) (htags : List String) (tr : List Stage) :
    acl_dispatch env mgh urlmap (ACLResult.Match ⟨bot, some ⟨false, htags⟩⟩) tr =
      (Except.ok (acl_block urlmap.acl_active 5 htags), tr) := by
  rcases bot with _ | ⟨ab, atags⟩
  · rfl
  · cases ab <;> rfl

theorem acl_dispatch_bot_denied_no_gh (env : Env) (urlmap : UrlMap)
    (btags : List String) (hu : Option ACLDecision) (tr : List Stage)
    (h5 : ∀ dec, hu = some dec → dec.allowed = true) :
    acl_dispatch env none urlmap (ACLResult.Match ⟨some ⟨false, btags⟩, hu⟩) tr =
      (waf_stage env urlmap, tr ++ waf_trace env) := by
  rcases hu with _ | ⟨ha, htg⟩
  · rfl
  · have h6 : ha = true := h5 ⟨ha, htg⟩ rfl
    subst h6
    rfl

theorem acl_dispatch_bot_denied_verified (env : Env) (gh : Grasshopper) (urlmap : UrlMap)
    (btags : List String) (hu : Option ACLDecision) (tr : List Stage)
    (h5 : ∀ dec, hu = some dec → dec.allowed = true)
    (hv : challenge_verified gh env.reqinfo = true) :
    acl_dispatch env (some gh) urlmap (ACLResult.Match ⟨some ⟨false, btags⟩, hu⟩) tr =
      (waf_stage env urlmap, tr ++ waf_trace env) := by
  rcases hu with _ | ⟨ha, htg⟩
  · simp [acl_dispatch, hv]
  · have h6 : ha = true := h5 ⟨ha, htg⟩ rfl
    subst h6
    simp [acl_dispatch, hv]

theorem acl_dispatch_to_waf (env : Env) (mgh : Option Grasshopper) (urlmap : UrlMap)
    (bot hu : Option ACLDecision) (tr : List Stage)
    (h5 : ∀ dec, hu = some dec → dec.allowed = true)
    (h6 : (∀ dec, bot = some dec → dec.allowed = true) ∨ mgh = none ∨
      ∃ gh, mgh = some gh ∧ challenge_verified gh env.reqinfo = true) :
    acl_dispatch env mgh urlmap (ACLResult.Match ⟨bot, hu⟩) tr =
      (waf_stage env urlmap, tr ++ waf_trace env) := by
  rcases bot with _ | ⟨ab, atags⟩
  · rcases hu with _ | ⟨ha, htg⟩
    · rfl
    · have h7 : ha = true := h5 ⟨ha, htg⟩ rfl
      subst h7
      rfl
  · cases ab with
    | true =>
      rcases hu with _ | ⟨ha, htg⟩
      · rfl
      · have h7 : ha = true := h5 ⟨ha, htg⟩ rfl
        subst h7
        rfl
    | false =>
      rcases h6 with hb | hm | ⟨gh, hm, hv⟩
      · exact Bool.noConfusion (hb ⟨false, atags⟩ rfl)
      · subst hm
        exact acl_dispatch_bot_denied_no_gh env urlmap atags hu tr h5
      · subst hm
        exact acl_dispatch_bot_denied_verified env gh urlmap atags hu tr h5 hv

theorem challenge_verified_true (gh : Grasshopper) (r : RequestInfo)
    (rbzid ua : String)
    (hc1 : r.cookies.get "rbzid" = some rbzid)
    (hc2 : r.headers.get "user-agent" = some ua)
    (hc3 : gh.parse_rbzid (rbzid.replace "-" "=") ua = some true) :
    challenge_verified gh r = true := by
  simp only [challenge_verified, hc1, hc2, hc3, Option.getD]

theorem not_mem_pre_acl_trace (env : Env) (mgh : Option Grasshopper) (s : Stage)
    (hs1 : s ≠ Stage.matchUrlmap) (hs2 : s ≠ Stage.challengePhase02)
    (hs3 : s ≠ Stage.tagRequest) (hs4 : s ≠ Stage.limitCheck)
    (hs5 : s ≠ Stage.checkAcl) :
    s ∉ pre_acl_trace env mgh := by
  intro hm
  rcases mem_pre_acl_trace env mgh s hm with h | h | h | h | h
  exacts [hs1 h, hs2 h, hs3 h, hs4 h, hs5 h]

theorem challengePhase01_not_mem_waf_path (env : Env) (mgh : Option Grasshopper) :
    Stage.challengePhase01 ∉ pre_acl_trace env mgh ++ waf_trace env := by
  intro hm
  rcases List.mem_append.mp hm with h | h
  · exact not_mem_pre_acl_trace env mgh _ (by decide) (by decide) (by decide)
      (by decide) (by decide) h
  · rcases mem_waf_trace env _ h with h' | h' <;> exact Stage.noConfusion h'

theorem mem_limit_trace (env : Env) (mgh : Option Grasshopper) (s : Stage)
    (hs : s ∈ [Stage.matchUrlmap] ++ phase02_trace env mgh ++
      [Stage.tagRequest, Stage.limitCheck]) :
    s = Stage.matchUrlmap ∨ s = Stage.challengePhase02 ∨ s = Stage.tagRequest ∨
      s = Stage.limitCheck := by
  rcases List.mem_append.mp hs with h | h
  · rcases List.mem_append.mp h with h2 | h2
    · simp at h2; tauto
    · exact Or.inr (Or.inl (mem_phase02_trace env mgh s h2))
  · simp at h; tauto

/-! ## Claims about the decision pipeline -/

/-- C4: for every ACL result of the form `Match` whose human sub-result
is denied, `inspect_generic` returns the `acl_block` action with reason
code 5, regardless of the bot sub-result (the bot-denied handling —
challenge issuance — and the WAF stage are never invoked); the action is
a `Block` whenever the URL map is in active (blocking) mode. -/
theorem C4_human_denied_blocks_code5 (env : Env) (mgh : Option Grasshopper)
    (cfg : Config) (nm : String) (urlmap : UrlMap)
    (bot : Option ACLDecision) (htags : List String)
    (h1 : env.get_config = Except.ok cfg)
    (h2 : env.match_urlmap = some (nm, urlmap))
    (hp : phase02_result env mgh = none)
    (h3 : (env.limit_check env.reqinfo urlmap (pipeline_tags env nm urlmap)).1 =
      Decision.Pass)
    (h4 : env.check_acl
        (env.limit_check env.reqinfo urlmap (pipeline_tags env nm urlmap)).2
        urlmap.acl_profile = ACLResult.Match ⟨bot, some ⟨false, htags⟩⟩) :
    (inspect_generic env mgh).1 = Except.ok (acl_block urlmap.acl_active 5 htags) ∧
    Decision.reason_action_code (acl_block urlmap.acl_active 5 htags) = some 5 ∧
    (urlmap.acl_active = true →
      ∃ a, acl_block urlmap.acl_active 5 htags = Decision.Action a ∧
        a.atype = ActionType.Block) ∧
    Stage.challengePhase01 ∉ (inspect_generic env mgh).2 ∧
    Stage.wafCheck ∉ (inspect_generic env mgh).2 := by
  have hred := inspect_generic_to_acl env mgh cfg nm urlmap h1 h2 hp h3
  rw [h4, acl_dispatch_human_denied] at hred
  refine ⟨by rw [hred], rfl, ?_, ?_, ?_⟩
  · intro ha
    rw [ha]
    exact ⟨_, rfl, rfl⟩
  · rw [hred]
    exact not_mem_pre_acl_trace env mgh _ (by decide) (by decide) (by decide)
      (by decide) (by decide)
  · rw [hred]
    exact not_mem_pre_acl_trace env mgh _ (by decide) (by decide) (by decide)
      (by decide) (by decide)

/-- Closed instance of `C4_human_denied_blocks_code5`: the ACL result
denies both the human and the bot sub-results, and the decision is the
code-5 human block. -/
theorem C4_witness :
    (inspect_generic envHumanDenied none).1 =
      Except.ok (acl_block exUrlMap.acl_active 5 ["deny:tag"]) ∧
    Decision.reason_action_code (acl_block exUrlMap.acl_active 5 ["deny:tag"]) = some 5 ∧
    (exUrlMap.acl_active = true →
      ∃ a, acl_block exUrlMap.acl_active 5 ["deny:tag"] = Decision.Action a ∧
        a.atype = ActionType.Block) ∧
    Stage.challengePhase01 ∉ (inspect_generic envHumanDenied none).2 ∧
    Stage.wafCheck ∉ (inspect_generic envHumanDenied none).2 :=
  C4_human_denied_blocks_code5 envHumanDenied none Config.mk "hostmap" exUrlMap
    (some ⟨false, ["bot:curl"]⟩) ["deny:tag"] rfl rfl rfl rfl rfl

/-- C5: if the rate-limit stage returns an `Action`, `inspect_generic`
returns that very action as the decision, and the later stages — ACL
resolution (`check_acl`), challenge issuance (`challenge_phase01`) and
the WAF scan (signature-database read and `waf_check`) — are never
invoked. -/
theorem C5_limit_short_circuit (env : Env) (mgh : Option Grasshopper)
    (cfg : Config) (nm : String) (urlmap : UrlMap) (a : Action)
    (h1 : env.get_config = Except.ok cfg)
    (h2 : env.match_urlmap = some (nm, urlmap))
    (hp : phase02_result env mgh = none)
    (h3 : (env.limit_check env.reqinfo urlmap (pipeline_tags env nm urlmap)).1 =
      Decision.Action a) :
    (inspect_generic env mgh).1 = Except.ok (Decision.Action a) ∧
    Stage.checkAcl ∉ (inspect_generic env mgh).2 ∧
    Stage.challengePhase01 ∉ (inspect_generic env mgh).2 ∧
    Stage.hsdbRead ∉ (inspect_generic env mgh).2 ∧
    Stage.wafCheck ∉ (inspect_generic env mgh).2 := by
  have hred := inspect_generic_limit_hit env mgh cfg nm urlmap a h1 h2 hp h3
  have hnm : ∀ s : Stage, s ≠ Stage.matchUrlmap → s ≠ Stage.challengePhase02 →
      s ≠ Stage.tagRequest → s ≠ Stage.limitCheck →
      s ∉ (inspect_generic env mgh).2 := by
    intro s n1 n2 n3 n4 hm
    rw [hred] at hm
    rcases mem_limit_trace env mgh s hm with h | h | h | h
    exacts [n1 h, n2 h, n3 h, n4 h]
  exact ⟨by rw [hred],
    hnm _ (by decide) (by decide) (by decide) (by decide),
    hnm _ (by decide) (by decide) (by decide) (by decide),
    hnm _ (by decide) (by decide) (by decide) (by decide),
    hnm _ (by decide) (by decide) (by decide) (by decide)⟩

/-- Closed instance of `C5_limit_short_circuit` at a concrete
environment whose rate limiter emits a block action. -/
theorem C5_witness :
    (inspect_generic envLimitHit none).1 = Except.ok (Decision.Action exLimitAction) ∧
    Stage.checkAcl ∉ (inspect_generic envLimitHit none).2 ∧
    Stage.challengePhase01 ∉ (inspect_generic envLimitHit none).2 ∧
    Stage.hsdbRead ∉ (inspect_generic envLimitHit none).2 ∧
    Stage.wafCheck ∉ (inspect_generic envLimitHit none).2 :=
  C5_limit_short_circuit envLimitHit none Config.mk "hostmap" exUrlMap exLimitAction
    rfl rfl rfl rfl

/-- C1 (counterexample): with the ACL denying the bot sub-result and no
grasshopper capability, `inspect_generic` does not block with reason
code 3 — the concrete run returns `Pass` and invokes the WAF stage. -/
theorem C1_counterexample :
    (inspect_generic envBotDenied none).1 = Except.ok Decision.Pass ∧
    Stage.wafCheck ∈ (inspect_generic envBotDenied none).2 ∧
    ∀ a : Action, (inspect_generic envBotDenied none).1 ≠ Except.ok (Decision.Action a) := by
  refine ⟨rfl, ?_, ?_⟩
  · have h : (inspect_generic envBotDenied none).2 =
        [Stage.matchUrlmap, Stage.tagRequest, Stage.limitCheck, Stage.checkAcl,
          Stage.hsdbRead, Stage.wafCheck] := rfl
    rw [h]
    simp
  · intro a h
    have h0 : (inspect_generic envBotDenied none).1 = Except.ok Decision.Pass := rfl
    rw [h0] at h
    exact Decision.noConfusion (Except.ok.inj h)

/-- C1 (amended): for every bot-denied ACL match, when the grasshopper
capability is absent the bot-denied branch is skipped entirely and
`inspect_generic` falls through to the WAF stage (no reason-code-3 block
and no challenge are produced). -/
theorem C1_no_grasshopper_falls_through (env : Env)
    (cfg : Config) (nm : String) (urlmap : UrlMap)
    (btags : List String) (hu : Option ACLDecision)
    (h1 : env.get_config = Except.ok cfg)
    (h2 : env.match_urlmap = some (nm, urlmap))
    (h3 : (env.limit_check env.reqinfo urlmap (pipeline_tags env nm urlmap)).1 =
      Decision.Pass)
    (h4 : env.check_acl
        (env.limit_check env.reqinfo urlmap (pipeline_tags env nm urlmap)).2
        urlmap.acl_profile = ACLResult.Match ⟨some ⟨false, btags⟩, hu⟩)
    (h5 : ∀ dec, hu = some dec → dec.allowed = true) :
    inspect_generic env none =
      (waf_stage env urlmap, pre_acl_trace env none ++ waf_trace env) ∧
    Stage.hsdbRead ∈ (inspect_generic env none).2 ∧
    Stage.challengePhase01 ∉ (inspect_generic env none).2 := by
  have hp : phase02_result env none = none := rfl
  have hred := inspect_generic_to_acl env none cfg nm urlmap h1 h2 hp h3
  rw [h4, acl_dispatch_bot_denied_no_gh env urlmap btags hu _ h5] at hred
  refine ⟨hred, ?_, ?_⟩
  · rw [hred]
    exact List.mem_append.mpr (Or.inr (hsdbRead_mem_waf_trace env))
  · rw [hred]
    exact challengePhase01_not_mem_waf_path env none

/-- Closed instance of `C1_no_grasshopper_falls_through` at the
bot-denied environment. -/
theorem C1_witness :
    inspect_generic envBotDenied none =
      (waf_stage envBotDenied exUrlMap,
        pre_acl_trace envBotDenied none ++ waf_trace envBotDenied) ∧
    Stage.hsdbRead ∈ (inspect_generic envBotDenied none).2 ∧
    Stage.challengePhase01 ∉ (inspect_generic envBotDenied none).2 :=
  C1_no_grasshopper_falls_through envBotDenied Config.mk "hostmap" exUrlMap
    ["bot:curl"] none rfl rfl rfl rfl (fun _ h => Option.noConfusion h)

/-- C2 (counterexample): with a failing signature-database lock, the
pipeline does not fail closed — the concrete run propagates an error out
of `inspect_generic`, and `inspect` turns it into no decision at all. -/
theorem C2_counterexample :
    (inspect_generic envHsdbErr none).1 = Except.error "poisoned" ∧
    inspect envHsdbErr none = none ∧
    ∀ dec : Decision, inspect envHsdbErr none ≠ some dec := by
  refine ⟨rfl, rfl, ?_⟩
  intro dec h
  have h0 : inspect envHsdbErr none = none := rfl
  rw [h0] at h
  exact Option.noConfusion h

/-- C2 (amended): for every request that reaches the WAF stage — the
ACL evaluation yields a `Match` whose human sub-result is not denied,
and whose bot sub-result is not denied, or is denied with the
grasshopper capability absent, or is denied with the challenge
verified — if the signature-database read-lock acquisition fails,
`inspect_generic` propagates the error (it produces no `Decision`,
neither pass nor block), and the `inspect` entry point collapses the
error into no decision (`none`). -/
theorem C2_lock_failure_yields_error (env : Env) (mgh : Option Grasshopper)
    (cfg : Config) (nm : String) (urlmap : UrlMap) (e : String)
    (bot hu : Option ACLDecision)
    (h1 : env.get_config = Except.ok cfg)
    (h2 : env.match_urlmap = some (nm, urlmap))
    (hp : phase02_result env mgh = none)
    (h3 : (env.limit_check env.reqinfo urlmap (pipeline_tags env nm urlmap)).1 =
      Decision.Pass)
    (h4 : env.check_acl
        (env.limit_check env.reqinfo urlmap (pipeline_tags env nm urlmap)).2
        urlmap.acl_profile = ACLResult.Match ⟨bot, hu⟩)
    (h5 : ∀ dec, hu = some dec → dec.allowed = true)
    (h6 : (∀ dec, bot = some dec → dec.allowed = true) ∨ mgh = none ∨
      ∃ gh, mgh = some gh ∧ challenge_verified gh env.reqinfo = true)
    (he : env.hsdb_read = Except.error e) :
    (inspect_generic env mgh).1 = Except.error e ∧
    inspect env mgh = none := by
  have hred := inspect_generic_to_acl env mgh cfg nm urlmap h1 h2 hp h3
  rw [h4, acl_dispatch_to_waf env mgh urlmap bot hu _ h5 h6] at hred
  have hw : waf_stage env urlmap = Except.error e := by
    simp only [waf_stage, he]
  have hfst : (inspect_generic env mgh).1 = Except.error e := by
    rw [hred]
    exact hw
  refine ⟨hfst, ?_⟩
  rw [inspect, hfst]
  rfl

/-- Closed instance of `C2_lock_failure_yields_error` at the poisoned
lock environment. -/
theorem C2_witness :
    (inspect_generic envHsdbErr none).1 = Except.error "poisoned" ∧
    inspect envHsdbErr none = none :=
  C2_lock_failure_yields_error envHsdbErr none Config.mk "hostmap" exUrlMap
    "poisoned" none none rfl rfl rfl rfl rfl
    (fun _ h => Option.noConfusion h) (Or.inr (Or.inl rfl)) rfl

/-- C8: for every bot-denied ACL match, when the grasshopper capability
is present and challenge verification succeeds (the `rbzid` cookie and
the `user-agent` header are present and `parse_rbzid` on the
hyphen-to-equals re-encoded token answers `true`), `inspect_generic`
neither blocks nor issues a challenge for the bot denial and instead
proceeds to the WAF check. -/
theorem C8_verified_bot_reaches_waf (env : Env) (gh : Grasshopper)
    (cfg : Config) (nm : String) (urlmap : UrlMap)
    (btags : List String) (hu : Option ACLDecision) (rbzid ua : String)
    (h1 : env.get_config = Except.ok cfg)
    (h2 : env.match_urlmap = some (nm, urlmap))
    (hp : phase02_result env (some gh) = none)
    (h3 : (env.limit_check env.reqinfo urlmap (pipeline_tags env nm urlmap)).1 =
      Decision.Pass)
    (h4 : env.check_acl
        (env.limit_check env.reqinfo urlmap (pipeline_tags env nm urlmap)).2
        urlmap.acl_profile = ACLResult.Match ⟨some ⟨false, btags⟩, hu⟩)
    (h5 : ∀ dec, hu = some dec → dec.allowed = true)
    (hc1 : env.reqinfo.cookies.get "rbzid" = some rbzid)
    (hc2 : env.reqinfo.headers.get "user-agent" = some ua)
    (hc3 : gh.parse_rbzid (rbzid.replace "-" "=") ua = some true) :
    inspect_generic env (some gh) =
      (waf_stage env urlmap, pre_acl_trace env (some gh) ++ waf_trace env) ∧
    Stage.hsdbRead ∈ (inspect_generic env (some gh)).2 ∧
    Stage.challengePhase01 ∉ (inspect_generic env (some gh)).2 := by
  have hv := challenge_verified_true gh env.reqinfo rbzid ua hc1 hc2 hc3
  have hred := inspect_generic_to_acl env (some gh) cfg nm urlmap h1 h2 hp h3
  rw [h4, acl_dispatch_bot_denied_verified env gh urlmap btags hu _ h5 hv] at hred
  refine ⟨hred, ?_, ?_⟩
  · rw [hred]
    exact List.mem_append.mpr (Or.inr (hsdbRead_mem_waf_trace env))
  · rw [hred]
    exact challengePhase01_not_mem_waf_path env (some gh)

/-- Closed instance of `C8_verified_bot_reaches_waf` at the bot-denied
environment with an always-verifying grasshopper. -/
theorem C8_witness :
    inspect_generic envBotDenied (some exGrasshopperTrue) =
      (waf_stage envBotDenied exUrlMap,
        pre_acl_trace envBotDenied (some exGrasshopperTrue) ++ waf_trace envBotDenied) ∧
    Stage.hsdbRead ∈ (inspect_generic envBotDenied (some exGrasshopperTrue)).2 ∧
    Stage.challengePhase01 ∉ (inspect_generic envBotDenied (some exGrasshopperTrue)).2 :=
  C8_verified_bot_reaches_waf envBotDenied exGrasshopperTrue Config.mk "hostmap" exUrlMap
    ["bot:curl"] none "tok-en" "curl/8" rfl rfl rfl rfl rfl
    (fun _ h => Option.noConfusion h) rfl rfl rfl

/-- C9: `challenge_verified` answers `false` — independently of the
grasshopper capability, which is never consulted — whenever the request
lacks an `rbzid` cookie or a `user-agent` header; and when `parse_rbzid`
returns no answer, `challenge_verified` is `false` rather than an
error. -/
theorem C9_challenge_verified_failures (r : RequestInfo) :
    (r.cookies.get "rbzid" = none → ∀ gh, challenge_verified gh r = false) ∧
    (r.headers.get "user-agent" = none → ∀ gh, challenge_verified gh r = false) ∧
    ((r.cookies.get "rbzid" = none ∨ r.headers.get "user-agent" = none) →
      ∀ gh gh', challenge_verified gh r = challenge_verified gh' r) ∧
    (∀ gh rbzid ua, r.cookies.get "rbzid" = some rbzid →
      r.headers.get "user-agent" = some ua →
      gh.parse_rbzid (rbzid.replace "-" "=") ua = none →
      challenge_verified gh r = false) := by
  refine ⟨?_, ?_, ?_, ?_⟩
  · intro h gh
    simp only [challenge_verified, h]
  · intro h gh
    cases hc : r.cookies.get "rbzid" with
    | none => simp only [challenge_verified, hc]
    | some z => simp only [challenge_verified, hc, h]
  · intro h gh gh'
    rcases h with h | h
    · simp only [challenge_verified, h]
    · cases hc : r.cookies.get "rbzid" with
      | none => simp only [challenge_verified, hc]
      | some z => simp only [challenge_verified, hc, h]
  · intro gh rbzid ua hc hua hpz
    simp only [challenge_verified, hc, hua, hpz, Option.getD]

/-- Closed instance of `C9_challenge_verified_failures`: missing cookie,
missing user-agent, and an unanswering `parse_rbzid` all yield
`false`. -/
theorem C9_witness :
    challenge_verified exGrasshopper exRequestInfoNoCookie = false ∧
    challenge_verified exGrasshopper exRequestInfoNoUA = false ∧
    challenge_verified exGrasshopperNone exRequestInfo = false :=
  ⟨(C9_challenge_verified_failures exRequestInfoNoCookie).1 rfl exGrasshopper,
   (C9_challenge_verified_failures exRequestInfoNoUA).2.1 rfl exGrasshopper,
   (C9_challenge_verified_failures exRequestInfo).2.2.2 exGrasshopperNone "tok-en"
     "curl/8" rfl rfl rfl⟩

end Curiefense
